import Mathlib

/-!
# Verification of the agentkit-aws-cdk AgentCore stack builder and CLI tools

This file is a shallow embedding, in Lean 4, of the resource-graph
construction performed by `NewAgentCoreStack` (agentcore/stack.go), of the
deployment orchestration CLI (`cmd/deploy`), and of the secret-classification
logic of `cmd/push-secrets`.  Go structs become Lean structures; Go maps are
represented as association lists with overwrite-on-insert semantics (only the
key-value contents of a Go map are observable, never its iteration order, and
the builder never lets iteration order reach the emitted resource list); CDK
construct creation becomes the emission of `Node` values in program order.
Theorems at the end of the file settle the specification claims.
-/

namespace AgentKit

/-- String-keyed map with Go-map semantics: `insert` overwrites an existing
binding in place and otherwise appends.  Lookup is `List.lookup`. -/
abbrev Smap := List (String × String)

def Smap.insert : Smap → String → String → Smap
  | [], k, v => [(k, v)]
  | (k', v') :: rest, k, v =>
    if k' = k then (k, v) :: rest else (k', v') :: Smap.insert rest k v

def Smap.lookup (m : Smap) (k : String) : Option String :=
  List.lookup k m

def Smap.ofList (l : List (String × String)) : Smap :=
  l.foldl (fun m kv => m.insert kv.1 kv.2) []

theorem Smap.lookup_insert_self (m : Smap) (k v : String) :
    (m.insert k v).lookup k = some v := by
  induction m with
  | nil => simp [Smap.insert, Smap.lookup, List.lookup]
  | cons hd tl ih =>
    by_cases h : hd.1 = k
    · simp [Smap.insert, Smap.lookup, List.lookup, h]
    · have hb : (k == hd.1) = false := by
        simp only [beq_eq_false_iff_ne, ne_eq]
        exact fun e => h e.symm
      simp only [Smap.insert, if_neg h, Smap.lookup, List.lookup, hb]
      exact ih

theorem Smap.lookup_insert_ne (m : Smap) (k k' v : String) (h : k' ≠ k) :
    (m.insert k v).lookup k' = m.lookup k' := by
  have hb : (k' == k) = false := by simpa using h
  induction m with
  | nil => simp [Smap.insert, Smap.lookup, List.lookup, hb]
  | cons hd tl ih =>
    by_cases hh : hd.1 = k
    · subst hh
      simp [Smap.insert, Smap.lookup, List.lookup, hb]
    · by_cases hk : k' = hd.1
      · simp [Smap.insert, if_neg hh, Smap.lookup, List.lookup, hk]
      · have hb' : (k' == hd.1) = false := by simpa using hk
        simp only [Smap.insert, if_neg hh, Smap.lookup, List.lookup, hb']
        exact ih

/-! ## Configuration model (iac config structs as used by stack.go)

`VPCConfig` and `IAMConfig` are dereferenced unconditionally by stack.go
(after `ApplyDefaults` has filled them in), so they are plain fields here;
`Secrets`, `Observability` and `Gateway` are nil-checked in the Go code and
are therefore `Option`s. -/

structure AgentConfig where
  name : String
  containerImage : String
  description : String := ""
  memoryMB : Int := 0
  timeoutSeconds : Int := 0
  environment : List (String × String) := []
  secretsARNs : List String := []
  protocol : String := ""
  isDefault : Bool := false
  deriving DecidableEq, Repr

structure VPCConfig where
  createVPC : Bool := true
  vpcCidr : String := "10.0.0.0/16"
  maxAZs : Int := 2
  enableVPCEndpoints : Bool := true
  vpcID : String := ""
  subnetIDs : List String := []
  securityGroupIDs : List String := []
  deriving DecidableEq, Repr

structure SecretsConfig where
  createSecrets : Bool := false
  secretName : String := ""
  secretValues : List (String × String) := []
  deriving DecidableEq, Repr

structure ObservabilityConfig where
  provider : String := "opik"
  project : String := ""
  endpoint : String := ""
  apiKeySecretARN : String := ""
  enableCloudWatchLogs : Bool := true
  logRetentionDays : Int := 30
  enableXRay : Bool := false
  deriving DecidableEq, Repr

structure IAMConfig where
  roleARN : String := ""
  enableBedrockAccess : Bool := true
  bedrockModelIDs : List String := []
  additionalPolicies : List String := []
  permissionsBoundaryARN : String := ""
  deriving DecidableEq, Repr

structure GatewayConfig where
  enabled : Bool := false
  name : String := ""
  description : String := ""
  deriving DecidableEq, Repr

structure StackConfig where
  stackName : String
  description : String := ""
  agents : List AgentConfig
  vpc : VPCConfig := {}
  secrets : Option SecretsConfig := none
  observability : Option ObservabilityConfig := none
  iam : IAMConfig := {}
  gateway : Option GatewayConfig := none
  tags : List (String × String) := []
  removalPolicy : String := ""
  deriving DecidableEq, Repr

/-! ## Resource nodes emitted by the builder -/

/-- CloudWatch log retention tiers (awslogs.RetentionDays values used
by createLogGroup). -/
inductive LogRetention
  | oneDay
  | oneWeek
  | twoWeeks
  | oneMonth
  | threeMonths
  | sixMonths
  | oneYear
  | infinite
  deriving DecidableEq, Repr

/-- One IAM policy statement added with role.AddToPolicy. -/
structure PolicyStatement where
  effect : String
  actions : List String
  resources : List String
  deriving DecidableEq, Repr

/-- A GrantRead call on the execution role: either for the stack-created
secret or for a secret imported from an ARN listed in an agent config. -/
inductive SecretGrant
  | stackSecret
  | externalArn (arn : String)
  deriving DecidableEq, Repr

/-- One resource construct created by NewAgentCoreStack, in program order.
Fields carry the configuration-derived values the Go code passes to the
corresponding CDK constructor; provider-assigned attributes (ARNs, ids)
are represented symbolically by the referenced construct id. -/
inductive Node
  | vpcImport (vpcId : String)
  | vpcCreate (vpcName : String) (cidr : String) (maxAZs : Int)
      (interfaceEndpoints : List String) (s3GatewayEndpoint : Bool)
  | securityGroupImport (sgId : String)
  | securityGroupCreate (sgName : String) (description : String)
      (allowAllOutbound : Bool) (selfIngress : Bool)
  | secret (secretName : String) (description : String)
      (secretObjectValue : List (String × String))
  | roleImport (roleArn : String)
  | roleCreate (roleName : String) (policies : List PolicyStatement)
      (grants : List SecretGrant) (managedPolicies : List String)
      (permissionsBoundary : Option String)
  | logGroup (logGroupName : String) (retention : LogRetention)
      (removalPolicy : String)
  | runtime (constructId : String) (agentRuntimeName : String)
      (roleRef : String) (containerUri : String)
      (securityGroupRefs : List String) (subnetsFromVpc : Bool)
      (env : Smap) (protocol : String)
      (hasLifecycle : Bool) (maxLifetime : Option Int) (tags : Smap)
  | endpoint (constructId : String) (endpointName : String)
      (agentName : String) (agentRuntimeIdRef : String)
      (description : String) (tags : Smap)
  | gateway (gatewayName : String) (description : String)
      (authorizerType : String) (protocolType : String)
      (roleRef : String) (tags : Smap)
  deriving DecidableEq, Repr

/-- One CfnOutput: construct id plus the value reference. -/
inductive OutputVal
  | attr (constructId : String) (attrName : String)
  | lit (s : String)
  deriving DecidableEq, Repr

structure Output where
  id : String
  value : OutputVal
  description : String
  deriving DecidableEq, Repr

/-! ## Builder: NewAgentCoreStack (agentcore/stack.go)

Each create* method of AgentCoreStack becomes a function returning the list
of nodes it emits; NewAgentCoreStack concatenates them in call order. -/

/-- createVPC: import when VPCID is set, create when CreateVPC, else nothing.
createVPCEndpoints adds the interface/gateway endpoints only on a freshly
created VPC (the type assertion fails for an imported one). -/
def vpcNodes (cfg : StackConfig) : List Node :=
  if cfg.vpc.vpcID ≠ "" then
    [.vpcImport cfg.vpc.vpcID]
  else if cfg.vpc.createVPC then
    [.vpcCreate (cfg.stackName ++ "-vpc") cfg.vpc.vpcCidr cfg.vpc.maxAZs
      (if cfg.vpc.enableVPCEndpoints then
        ["BedrockEndpoint", "BedrockRuntimeEndpoint", "SecretsManagerEndpoint",
         "LogsEndpoint", "EcrApiEndpoint", "EcrDkrEndpoint"]
      else [])
      cfg.vpc.enableVPCEndpoints]
  else []

/-- Whether stack.go left s.VPC non-nil. -/
def vpcPresent (cfg : StackConfig) : Bool :=
  cfg.vpc.vpcID ≠ "" || cfg.vpc.createVPC

/-- createSecurityGroup: import the first listed id, else create with
allow-all egress and a self-referential ingress rule. -/
def securityGroupNodes (cfg : StackConfig) : List Node :=
  match cfg.vpc.securityGroupIDs with
  | sgId :: _ => [.securityGroupImport sgId]
  | [] =>
    [.securityGroupCreate (cfg.stackName ++ "-sg")
      ("Security group for " ++ cfg.stackName ++ " AgentCore agents") true true]

/-- createSecrets: emitted only when CreateSecrets is set with a non-empty
value map.  The Go code converts SecretValues to a JSON structure but never
passes it on: the SecretObjectValue handed to NewSecret is the empty map
literal, so the emitted secret carries an empty payload. -/
def secretNodes (cfg : StackConfig) : List Node :=
  match cfg.secrets with
  | none => []
  | some sc =>
    if sc.createSecrets ∧ sc.secretValues.length > 0 then
      let nm := if sc.secretName = "" then cfg.stackName ++ "-secrets" else sc.secretName
      [.secret nm ("Secrets for " ++ cfg.stackName ++ " AgentCore agents") []]
    else []

/-- Whether stack.go left s.Secret non-nil. -/
def stackSecretPresent (cfg : StackConfig) : Bool :=
  match cfg.secrets with
  | none => false
  | some sc => sc.createSecrets && sc.secretValues.length > 0

def bedrockModelPattern (modelID : String) : String :=
  "arn:aws:bedrock:*:*:foundation-model/" ++ modelID

def bedrockInvokeActions : List String :=
  ["bedrock:InvokeModel", "bedrock:InvokeModelWithResponseStream"]

/-- The Bedrock-access statements added by createIAMRole: a single statement
listing one resource pattern per configured model id, or a single wildcard
statement when no model ids are configured. -/
def bedrockStatements (iam : IAMConfig) : List PolicyStatement :=
  if iam.enableBedrockAccess then
    if iam.bedrockModelIDs.length > 0 then
      [⟨"Allow", bedrockInvokeActions, iam.bedrockModelIDs.map bedrockModelPattern⟩]
    else
      [⟨"Allow", bedrockInvokeActions, ["arn:aws:bedrock:*:*:foundation-model/*"]⟩]
  else []

def logsStatement : PolicyStatement :=
  ⟨"Allow", ["logs:CreateLogGroup", "logs:CreateLogStream", "logs:PutLogEvents"],
    ["arn:aws:logs:*:*:*"]⟩

def ecrStatement : PolicyStatement :=
  ⟨"Allow", ["ecr:GetAuthorizationToken", "ecr:BatchCheckLayerAvailability",
    "ecr:GetDownloadUrlForLayer", "ecr:BatchGetImage"], ["*"]⟩

/-- GrantRead calls made by createIAMRole: the stack secret (if created),
then every SecretsARNs entry of every agent, in config order. -/
def roleSecretGrants (cfg : StackConfig) : List SecretGrant :=
  (if stackSecretPresent cfg then [.stackSecret] else [])
    ++ cfg.agents.flatMap (fun a => a.secretsARNs.map .externalArn)

/-- createIAMRole: import when RoleARN is set, else create the execution role
with Bedrock, CloudWatch Logs and ECR statements plus secret grants. -/
def roleNodes (cfg : StackConfig) : List Node :=
  if cfg.iam.roleARN ≠ "" then
    [.roleImport cfg.iam.roleARN]
  else
    [.roleCreate (cfg.stackName ++ "-execution-role")
      (bedrockStatements cfg.iam ++ [logsStatement] ++ [ecrStatement])
      (roleSecretGrants cfg)
      cfg.iam.additionalPolicies
      (if cfg.iam.permissionsBoundaryARN ≠ "" then some cfg.iam.permissionsBoundaryARN
       else none)]

/-- The role reference handed to runtimes and the gateway
(s.ExecutionRole.RoleArn()). -/
def roleRefOf (cfg : StackConfig) : String :=
  if cfg.iam.roleARN ≠ "" then cfg.iam.roleARN else "ExecutionRole"

/-- The retention switch of createLogGroup. -/
def retentionSwitch (retentionDays : Int) : LogRetention :=
  if retentionDays ≤ 1 then .oneDay
  else if retentionDays ≤ 7 then .oneWeek
  else if retentionDays ≤ 14 then .twoWeeks
  else if retentionDays ≤ 30 then .oneMonth
  else if retentionDays ≤ 90 then .threeMonths
  else if retentionDays ≤ 180 then .sixMonths
  else if retentionDays ≤ 365 then .oneYear
  else .infinite

/-- createLogGroup's retention mapping.  A zero request is replaced by the
default 30 before the switch; negative values fall into the first case. -/
def mapLogRetention (logRetentionDays : Int) : LogRetention :=
  retentionSwitch (if logRetentionDays = 0 then 30 else logRetentionDays)

/-- createLogGroup: emitted only when observability is configured with
CloudWatch logs enabled. -/
def logGroupNodes (cfg : StackConfig) : List Node :=
  match cfg.observability with
  | none => []
  | some obs =>
    if obs.enableCloudWatchLogs then
      [.logGroup ("/aws/agentcore/" ++ cfg.stackName)
        (mapLogRetention obs.logRetentionDays)
        (if cfg.removalPolicy = "retain" then "retain" else "destroy")]
    else []

/-- createAgent's environment-variable assembly: the agent's own environment
is copied into a fresh map first, the observability variables are written
after it (overwriting on key conflict), and the AgentCore variables last. -/
def buildEnvVars (cfg : StackConfig) (a : AgentConfig) : Smap :=
  let envVars : Smap := Smap.ofList a.environment
  let envVars :=
    match cfg.observability with
    | some obs =>
      let m := envVars.insert "OBSERVABILITY_ENABLED" "true"
      let m := m.insert "OBSERVABILITY_PROVIDER" obs.provider
      let m := m.insert "OBSERVABILITY_PROJECT" obs.project
      if obs.endpoint ≠ "" then m.insert "OBSERVABILITY_ENDPOINT" obs.endpoint else m
    | none => envVars
  let envVars := envVars.insert "AGENTCORE_AGENT_NAME" a.name
  if a.isDefault then envVars.insert "AGENTCORE_DEFAULT_AGENT" a.name else envVars

/-- getProtocol. -/
def getProtocol (a : AgentConfig) : String :=
  if a.protocol ≠ "" then a.protocol else "HTTP"

/-- getTags: stack tags plus the Agent tag. -/
def getAgentTags (cfg : StackConfig) (a : AgentConfig) : Smap :=
  (Smap.ofList cfg.tags).insert "Agent" a.name

/-- getStackTags. -/
def getStackTags (cfg : StackConfig) : Smap :=
  Smap.ofList cfg.tags

/-- The Runtime node createAgentRuntime emits for one agent. -/
def runtimeNode (cfg : StackConfig) (a : AgentConfig) : Node :=
  .runtime ("Runtime-" ++ a.name) a.name (roleRefOf cfg) a.containerImage
    ["SecurityGroup"]
    (vpcPresent cfg)
    (buildEnvVars cfg a) (getProtocol a)
    (a.timeoutSeconds > 0 || a.memoryMB > 0)
    (if a.timeoutSeconds > 0 then some a.timeoutSeconds else none)
    (getAgentTags cfg a)

/-- Per-agent CfnOutputs added by addAgentOutputs. -/
def agentOutputs (a : AgentConfig) : List Output :=
  [⟨"Agent-" ++ a.name ++ "-RuntimeArn", .attr ("Runtime-" ++ a.name) "AgentRuntimeArn",
    "Runtime ARN for agent " ++ a.name⟩,
   ⟨"Agent-" ++ a.name ++ "-RuntimeId", .attr ("Runtime-" ++ a.name) "AgentRuntimeId",
    "Runtime ID for agent " ++ a.name⟩,
   ⟨"Agent-" ++ a.name ++ "-EndpointArn", .attr ("Endpoint-" ++ a.name) "AgentRuntimeEndpointArn",
    "Endpoint ARN for agent " ++ a.name⟩,
   ⟨"Agent-" ++ a.name ++ "-Image", .lit a.containerImage,
    "Container image for agent " ++ a.name⟩]

/-- Mutable state threaded through the per-agent loop of NewAgentCoreStack:
the nodes and outputs emitted so far and the s.Runtimes map
(agent name, construct id), newest binding first. -/
structure AgentsAcc where
  nodes : List Node
  outputs : List Output
  runtimes : List (String × String)
  deriving Repr

def createAgentRuntimeStep (cfg : StackConfig) (a : AgentConfig) (acc : AgentsAcc) :
    AgentsAcc :=
  { acc with
    nodes := acc.nodes ++ [runtimeNode cfg a],
    runtimes := (a.name, "Runtime-" ++ a.name) :: acc.runtimes }

/-- createRuntimeEndpoint: looks the runtime up in s.Runtimes by agent name
and wires AgentRuntimeId to it. -/
def createRuntimeEndpointStep (cfg : StackConfig) (a : AgentConfig) (acc : AgentsAcc) :
    AgentsAcc :=
  let runtimeRef := (List.lookup a.name acc.runtimes).getD ""
  { acc with
    nodes := acc.nodes ++
      [.endpoint ("Endpoint-" ++ a.name) (a.name ++ "-endpoint") a.name runtimeRef
        ("Endpoint for agent " ++ a.name) (getAgentTags cfg a)] }

def addAgentOutputsStep (a : AgentConfig) (acc : AgentsAcc) : AgentsAcc :=
  { acc with outputs := acc.outputs ++ agentOutputs a }

/-- createAgent: runtime, then endpoint, then the agent's outputs. -/
def createAgentStep (cfg : StackConfig) (a : AgentConfig) (acc : AgentsAcc) : AgentsAcc :=
  addAgentOutputsStep a (createRuntimeEndpointStep cfg a (createAgentRuntimeStep cfg a acc))

/-- The per-agent loop of NewAgentCoreStack. -/
def buildAgentsAcc (cfg : StackConfig) : AgentsAcc :=
  cfg.agents.foldl (fun acc a => createAgentStep cfg a acc) ⟨[], [], []⟩

/-- Whether createGateway emits anything. -/
def gatewayRequested (cfg : StackConfig) : Bool :=
  match cfg.gateway with
  | none => false
  | some g => g.enabled

/-- createGateway: protocol type is taken from the first agent (default MCP),
authorizer type is NONE. -/
def gatewayNodes (cfg : StackConfig) : List Node :=
  match cfg.gateway with
  | none => []
  | some g =>
    if g.enabled then
      let protocolType :=
        match cfg.agents with
        | a :: _ => if a.protocol ≠ "" then a.protocol else "MCP"
        | [] => "MCP"
      [.gateway g.name g.description "NONE" protocolType (roleRefOf cfg) (getStackTags cfg)]
    else []

/-- The full ordered node list produced by NewAgentCoreStack. -/
def buildNodes (cfg : StackConfig) : List Node :=
  vpcNodes cfg ++ securityGroupNodes cfg ++ secretNodes cfg ++ roleNodes cfg
    ++ logGroupNodes cfg ++ (buildAgentsAcc cfg).nodes ++ gatewayNodes cfg

/-- addOutputs: stack-level outputs, then gateway outputs when the gateway
resource exists. -/
def stackLevelOutputs (cfg : StackConfig) : List Output :=
  (if vpcPresent cfg then [⟨"VPCID", .attr "VPC" "VpcId", "VPC ID"⟩] else [])
    ++ [⟨"SecurityGroupID", .attr "SecurityGroup" "SecurityGroupId", "Security Group ID"⟩]
    ++ [⟨"ExecutionRoleARN", .attr "ExecutionRole" "RoleArn", "IAM Execution Role ARN"⟩]
    ++ (if (logGroupNodes cfg).length > 0 then
          [⟨"LogGroupName", .attr "LogGroup" "LogGroupName", "CloudWatch Log Group Name"⟩]
        else [])
    ++ [⟨"AgentCount", .lit (toString cfg.agents.length), "Number of deployed agents"⟩]

def gatewayOutputs (cfg : StackConfig) : List Output :=
  if gatewayRequested cfg then
    [⟨"GatewayArn", .attr "Gateway" "GatewayArn", "Gateway ARN"⟩,
     ⟨"GatewayId", .attr "Gateway" "GatewayIdentifier", "Gateway ID"⟩,
     ⟨"GatewayUrl", .attr "Gateway" "GatewayUrl", "Gateway URL for invocation"⟩]
  else []

/-- All CfnOutputs in creation order: per-agent outputs are added inside the
agent loop, the stack-level and gateway outputs by addOutputs at the end. -/
def buildOutputs (cfg : StackConfig) : List Output :=
  (buildAgentsAcc cfg).outputs ++ stackLevelOutputs cfg ++ gatewayOutputs cfg

/-! ## Env-file parsing and secret classification

cmd/push-secrets/main.go and cmd/deploy contain the same parseEnvFile logic:
lines are matched against the anchored pattern
optional-whitespace, optional "export" plus whitespace, a key of shape
[A-Za-z_][A-Za-z0-9_]*, "=", rest-of-line; blank lines and #-comments are
skipped, values are stripped of surrounding quotes, empty and "your-"
placeholder values are dropped, and each key is stored into every group whose
fixed pattern list contains it exactly. -/

def dquoteChar : Char := Char.ofNat 34

def squoteChar : Char := Char.ofNat 39

/-- The characters the Go regexp class \s matches. -/
def isSpaceChar (c : Char) : Bool :=
  c = ' ' || c = '\t' || c = '\n' || c = Char.ofNat 11 || c = Char.ofNat 12 || c = '\r'

def isKeyStart (c : Char) : Bool :=
  c.isAlpha || c = '_'

def isKeyChar (c : Char) : Bool :=
  c.isAlphanum || c = '_'

/-- Greedy key followed by "=": returns (key, raw value). -/
def parseKeyEq (cs : List Char) : Option (String × String) :=
  match cs with
  | [] => none
  | c :: rest =>
    if isKeyStart c then
      match rest.dropWhile isKeyChar with
      | '=' :: v => some (String.mk (c :: rest.takeWhile isKeyChar), String.mk v)
      | _ => none
    else none

/-- The optional (export\s+) group: literal "export" followed by at least one
whitespace character. -/
def dropExport (cs : List Char) : Option (List Char) :=
  match cs with
  | 'e' :: 'x' :: 'p' :: 'o' :: 'r' :: 't' :: rest =>
    match rest with
    | c :: _ => if isSpaceChar c then some (rest.dropWhile isSpaceChar) else none
    | [] => none
  | _ => none

/-- The full line match, with the regexp's backtracking out of the optional
export group when the remainder does not parse. -/
def matchEnvLine (line : String) : Option (String × String) :=
  let cs := line.toList.dropWhile isSpaceChar
  match dropExport cs with
  | some cs2 =>
    match parseKeyEq cs2 with
    | some kv => some kv
    | none => parseKeyEq cs
  | none => parseKeyEq cs

def isQuoteChar (c : Char) : Bool :=
  c = dquoteChar || c = squoteChar

/-- strings.Trim with cutset quote-or-apostrophe. -/
def trimQuotes (s : String) : String :=
  String.mk (((s.toList.dropWhile isQuoteChar).reverse.dropWhile isQuoteChar).reverse)

/-- Skip blank lines and comments (strings.TrimSpace, then emptiness or
leading "#": only the leading whitespace can affect either test). -/
def envSkipLine (line : String) : Bool :=
  match line.toList.dropWhile isSpaceChar with
  | [] => true
  | c :: _ => c = '#'

/-- strings.HasPrefix value "your-". -/
def isPlaceholderValue (value : String) : Bool :=
  match value.toList with
  | 'y' :: 'o' :: 'u' :: 'r' :: '-' :: _ => true
  | _ => false

structure SecretGroup where
  name : String
  description : String
  keys : Smap
  patternList : List String
  deriving DecidableEq, Repr

/-- One iteration of the scanner loop of parseEnvFile. -/
def classifyLine (groups : List SecretGroup) (line : String) : List SecretGroup :=
  if envSkipLine line then groups
  else
    match matchEnvLine line with
    | none => groups
    | some (key, rawValue) =>
      let value := trimQuotes rawValue
      if value = "" || isPlaceholderValue value then groups
      else
        groups.map (fun g =>
          if g.patternList.contains key then { g with keys := g.keys.insert key value }
          else g)

def parseEnvLines (lines : List String) (groups : List SecretGroup) : List SecretGroup :=
  lines.foldl classifyLine groups

/-- The three fixed secret groups defined identically by cmd/push-secrets
and cmd/deploy. -/
def defaultGroups : List SecretGroup :=
  [⟨"llm", "LLM provider API keys", [],
    ["GOOGLE_API_KEY", "GEMINI_API_KEY", "ANTHROPIC_API_KEY", "CLAUDE_API_KEY",
     "OPENAI_API_KEY", "XAI_API_KEY", "LLM_API_KEY"]⟩,
   ⟨"search", "Search provider API keys", [],
    ["SERPER_API_KEY", "SERPAPI_API_KEY"]⟩,
   ⟨"config", "Configuration and observability settings", [],
    ["LLM_PROVIDER", "LLM_MODEL", "LLM_BASE_URL", "SEARCH_PROVIDER",
     "OBSERVABILITY_ENABLED", "OBSERVABILITY_PROVIDER",
     "OPIK_API_KEY", "OPIK_WORKSPACE", "OPIK_PROJECT",
     "LANGFUSE_PUBLIC_KEY", "LANGFUSE_SECRET_KEY", "PHOENIX_API_KEY"]⟩]

/-! ## The deploy orchestrator (cmd/deploy)

run() performs: AWS config load, STS GetCallerIdentity, then
step 1 push secrets (fatal), step 2 cdk bootstrap (result discarded),
step 3 deploy (go mod tidy with ignored failure, then cdk diff in dry-run
with ignored failure, or cdk deploy whose failure is fatal).  The model is a
function of the flag set and of a world record holding the outcome of every
external interaction; alongside the result it returns the trace of external
calls actually performed. -/

/-- The external calls the orchestrator can make. -/
inductive ExtCall
  | loadConfig
  | stsGetCallerIdentity
  | putSecretValue (secretName : String)
  | createSecret (secretName : String)
  | cdkBootstrap
  | goModTidy
  | cdkDiff
  | cdkDeploy
  deriving DecidableEq, Repr

/-- Outcome of a PutSecretValue call. -/
inductive PutResult
  | ok
  | notFound
  | err (msg : String)
  deriving DecidableEq, Repr

instance : DecidableEq (Except String Unit) := fun a b =>
  match a, b with
  | .ok (), .ok () => isTrue rfl
  | .error x, .error y =>
    if h : x = y then isTrue (by rw [h])
    else isFalse (fun he => h (Except.error.inj he))
  | .ok _, .error _ => isFalse (fun he => Except.noConfusion he)
  | .error _, .ok _ => isFalse (fun he => Except.noConfusion he)

structure DeployWorld where
  awsConfig : Except String Unit
  stsAccount : Except String String
  envFile : Option (List String)
  putSecret : String → PutResult
  createSecretRes : String → Except String Unit
  bootstrapRun : Except String Unit
  goModTidyRun : Except String Unit
  cdkDiffRun : Except String Unit
  cdkDeployRun : Except String Unit

structure DeployArgs where
  dryRun : Bool
  skipSecrets : Bool
  skipBootstrap : Bool
  pfx : String
  deriving DecidableEq, Repr

/-- createOrUpdateSecret: empty groups are skipped, dry-run stops before any
call, otherwise PutSecretValue is tried and CreateSecret is the
ResourceNotFound fallback. -/
def createOrUpdateSecret (w : DeployWorld) (secretName : String) (g : SecretGroup)
    (dryRun : Bool) : Except String Unit × List ExtCall :=
  if g.keys.isEmpty then (.ok (), [])
  else if dryRun then (.ok (), [])
  else
    match w.putSecret secretName with
    | .ok => (.ok (), [.putSecretValue secretName])
    | .err m => (.error m, [.putSecretValue secretName])
    | .notFound =>
      match w.createSecretRes secretName with
      | .ok _ => (.ok (), [.putSecretValue secretName, .createSecret secretName])
      | .error m => (.error m, [.putSecretValue secretName, .createSecret secretName])

/-- The per-group loop of pushSecrets, aborting on the first error. -/
def processGroups (w : DeployWorld) (dryRun : Bool) (pfx : String) :
    List SecretGroup → Except String Unit × List ExtCall
  | [] => (.ok (), [])
  | g :: rest =>
    let r := createOrUpdateSecret w (pfx ++ "/" ++ g.name) g dryRun
    match r.1 with
    | .error m => (.error m, r.2)
    | .ok _ =>
      let r2 := processGroups w dryRun pfx rest
      (r2.1, r.2 ++ r2.2)

/-- pushSecrets: a missing env file is a logged skip, not an error; otherwise
the file is parsed into the fixed groups and each group is pushed. -/
def pushSecretsStep (w : DeployWorld) (dryRun : Bool) (pfx : String) :
    Except String Unit × List ExtCall :=
  match w.envFile with
  | none => (.ok (), [])
  | some lines => processGroups w dryRun pfx (parseEnvLines lines defaultGroups)

/-- bootstrapCDK returns no error: in dry-run it only prints the target, and
otherwise the exit status of "cdk bootstrap" is inspected only to print a
message ("already bootstrapped" is indistinguishable from failure). -/
def bootstrapStep (dryRun : Bool) : List ExtCall :=
  if dryRun then [] else [.cdkBootstrap]

/-- deployCDK: "go mod tidy" always runs and its failure is only a warning;
in dry-run "cdk diff" runs with its exit status discarded and the step
succeeds; otherwise the result is that of "cdk deploy". -/
def deployStep (w : DeployWorld) (dryRun : Bool) : Except String Unit × List ExtCall :=
  if dryRun then (.ok (), [.goModTidy, .cdkDiff])
  else
    match w.cdkDeployRun with
    | .ok _ => (.ok (), [.goModTidy, .cdkDeploy])
    | .error m => (.error m, [.goModTidy, .cdkDeploy])

/-- run() of cmd/deploy. -/
def runDeploy (args : DeployArgs) (w : DeployWorld) : Except String Unit × List ExtCall :=
  match w.awsConfig with
  | .error e => (.error ("loading AWS config: " ++ e), [.loadConfig])
  | .ok _ =>
    match w.stsAccount with
    | .error e => (.error ("getting AWS identity: " ++ e), [.loadConfig, .stsGetCallerIdentity])
    | .ok _ =>
      let base : List ExtCall := [.loadConfig, .stsGetCallerIdentity]
      let secretsRes :=
        if args.skipSecrets then ((.ok () : Except String Unit), ([] : List ExtCall))
        else pushSecretsStep w args.dryRun args.pfx
      match secretsRes.1 with
      | .error e => (.error ("pushing secrets: " ++ e), base ++ secretsRes.2)
      | .ok _ =>
        let bootTrace := if args.skipBootstrap then [] else bootstrapStep args.dryRun
        let deployRes := deployStep w args.dryRun
        match deployRes.1 with
        | .error e =>
          (.error ("deploying: " ++ e), base ++ secretsRes.2 ++ bootTrace ++ deployRes.2)
        | .ok _ => (.ok (), base ++ secretsRes.2 ++ bootTrace ++ deployRes.2)

/-! ## Observers on nodes -/

/-- The resource kind of a node (the spec's ResourceNode.kind). -/
inductive NodeKind
  | network
  | securityBoundary
  | secretStore
  | identity
  | logSink
  | runtimeKind
  | endpointKind
  | gatewayKind
  deriving DecidableEq, Repr

def Node.kind : Node → NodeKind
  | .vpcImport _ => .network
  | .vpcCreate _ _ _ _ _ => .network
  | .securityGroupImport _ => .securityBoundary
  | .securityGroupCreate _ _ _ _ => .securityBoundary
  | .secret _ _ _ => .secretStore
  | .roleImport _ => .identity
  | .roleCreate _ _ _ _ _ => .identity
  | .logGroup _ _ _ => .logSink
  | .runtime _ _ _ _ _ _ _ _ _ _ _ => .runtimeKind
  | .endpoint _ _ _ _ _ _ => .endpointKind
  | .gateway _ _ _ _ _ _ => .gatewayKind

/-- (construct id, agent runtime name) of a Runtime node. -/
def Node.runtimeIdName : Node → Option (String × String)
  | .runtime cid nm _ _ _ _ _ _ _ _ _ => some (cid, nm)
  | _ => none

/-- (agent name, referenced runtime construct id) of an Endpoint node. -/
def Node.endpointInfo : Node → Option (String × String)
  | .endpoint _ _ agentName ref _ _ => some (agentName, ref)
  | _ => none

/-- The policy statements of a created execution role. -/
def Node.rolePolicies : Node → Option (List PolicyStatement)
  | .roleCreate _ ps _ _ _ => some ps
  | _ => none

/-- The environment map of a Runtime node. -/
def Node.runtimeEnv : Node → Option Smap
  | .runtime _ _ _ _ _ _ env _ _ _ _ => some env
  | _ => none

/-- The secret-value payload of a SecretStore node. -/
def Node.secretPayload : Node → Option (List (String × String))
  | .secret _ _ kvs => some kvs
  | _ => none

def isBedrockInvokeStatement (p : PolicyStatement) : Bool :=
  p.actions.contains "bedrock:InvokeModel"

/-- The Endpoint node createRuntimeEndpoint emits for one agent (with the
runtime reference already resolved from the freshly updated Runtimes map). -/
def endpointNode (cfg : StackConfig) (a : AgentConfig) : Node :=
  .endpoint ("Endpoint-" ++ a.name) (a.name ++ "-endpoint") a.name ("Runtime-" ++ a.name)
    ("Endpoint for agent " ++ a.name) (getAgentTags cfg a)

/-- The environment keys written after the agent's own environment map
(observability and AgentCore variables). -/
def reservedEnvKeys : List String :=
  ["OBSERVABILITY_ENABLED", "OBSERVABILITY_PROVIDER", "OBSERVABILITY_PROJECT",
   "OBSERVABILITY_ENDPOINT", "AGENTCORE_AGENT_NAME", "AGENTCORE_DEFAULT_AGENT"]

/-! ## Spec-side definition of the retention round-up rule -/

/-- Days of a supported retention tier (none for unlimited). -/
def tierDays : LogRetention → Option Int
  | .oneDay => some 1
  | .oneWeek => some 7
  | .twoWeeks => some 14
  | .oneMonth => some 30
  | .threeMonths => some 90
  | .sixMonths => some 180
  | .oneYear => some 365
  | .infinite => none

def finiteTiers : List LogRetention :=
  [.oneDay, .oneWeek, .twoWeeks, .oneMonth, .threeMonths, .sixMonths, .oneYear]

/-- Modelled from the spec: "for retention request r days, pick the smallest
supported tier ≥ r (supported tiers: 1, 7, 14, 30, 90, 180, 365,
unlimited)".  Written independently of createLogGroup's switch, to be
compared with `mapLogRetention`. -/
def specRoundUpTier (r : Int) : LogRetention :=
  match finiteTiers.find? (fun t =>
      match tierDays t with
      | some d => decide (r ≤ d)
      | none => false) with
  | some t => t
  | none => .infinite

/-! ## Concrete configurations used by witnesses and counterexamples -/

def witnessAgentA : AgentConfig :=
  { name := "research", containerImage := "ghcr.io/example/research:latest",
    memoryMB := 512, timeoutSeconds := 30 }

def witnessAgentB : AgentConfig :=
  { name := "orchestration", containerImage := "ghcr.io/example/orchestration:latest",
    memoryMB := 1024, timeoutSeconds := 300, isDefault := true }

def witnessStack : StackConfig :=
  { stackName := "my-agents",
    agents := [witnessAgentA, witnessAgentB],
    observability := some { provider := "opik", project := "my-project",
                            enableCloudWatchLogs := true, logRetentionDays := 30 } }

/-- C3 counterexample: the agent sets OBSERVABILITY_PROVIDER itself while the
stack configures observability. -/
def envConflictAgent : AgentConfig :=
  { name := "a", containerImage := "img",
    environment := [("OBSERVABILITY_PROVIDER", "custom")] }

def envConflictObs : ObservabilityConfig :=
  { provider := "opik", project := "p",
    enableCloudWatchLogs := false, logRetentionDays := 30 }

def envConflictStack : StackConfig :=
  { stackName := "s",
    agents := [envConflictAgent],
    observability := some envConflictObs }

/-- C4 counterexamples: retention requests 0 and -5 with logging enabled. -/
def retentionZeroStack : StackConfig :=
  { stackName := "s",
    agents := [{ name := "a", containerImage := "img" }],
    observability := some { provider := "opik", project := "p",
                            enableCloudWatchLogs := true, logRetentionDays := 0 } }

def retentionNegStack : StackConfig :=
  { stackName := "s",
    agents := [{ name := "a", containerImage := "img" }],
    observability := some { provider := "opik", project := "p",
                            enableCloudWatchLogs := true, logRetentionDays := -5 } }

/-- C4 witness: retention request 10 with logging enabled. -/
def retentionTenObs : ObservabilityConfig :=
  { provider := "opik", project := "p",
    enableCloudWatchLogs := true, logRetentionDays := 10 }

def retentionTenStack : StackConfig :=
  { stackName := "s",
    agents := [{ name := "a", containerImage := "img" }],
    observability := some retentionTenObs }

/-- The gateway-labeled output construct ids. -/
def gatewayOutputIds : List String := ["GatewayArn", "GatewayId", "GatewayUrl"]

/-- C5 counterexample: two permitted model identifiers. -/
def twoModelStack : StackConfig :=
  { stackName := "s",
    agents := [{ name := "a", containerImage := "img" }],
    iam := { enableBedrockAccess := true, bedrockModelIDs := ["m1", "m2"] } }

/-- C10 witness: createSecrets with a non-empty inline value map. -/
def secretsSc : SecretsConfig :=
  { createSecrets := true, secretValues := [("OPENAI_API_KEY", "sk-1")] }

def secretsStack : StackConfig :=
  { stackName := "s",
    agents := [{ name := "a", containerImage := "img" }],
    secrets := some secretsSc }

/-- C6 witness config with an enabled gateway. -/
def gatewayStack : StackConfig :=
  { stackName := "s",
    agents := [{ name := "a", containerImage := "img", protocol := "MCP" }],
    gateway := some { enabled := true, name := "tools", description := "gw" } }

/-- Orchestrator worlds: everything succeeds. -/
def allOkWorld : DeployWorld :=
  { awsConfig := .ok (), stsAccount := .ok "123456789012",
    envFile := some ["OPENAI_API_KEY=sk-test-123"],
    putSecret := fun _ => .ok, createSecretRes := fun _ => .ok (),
    bootstrapRun := .ok (), goModTidyRun := .ok (),
    cdkDiffRun := .ok (), cdkDeployRun := .ok () }

/-- STS GetCallerIdentity fails. -/
def stsFailWorld : DeployWorld :=
  { allOkWorld with stsAccount := .error "denied" }

/-- PutSecretValue fails for every secret. -/
def putFailWorld : DeployWorld :=
  { allOkWorld with putSecret := fun _ => .err "access denied" }

def dryRunArgs : DeployArgs :=
  { dryRun := true, skipSecrets := false, skipBootstrap := false, pfx := "stats-agent" }

def realRunArgs : DeployArgs :=
  { dryRun := false, skipSecrets := false, skipBootstrap := false, pfx := "stats-agent" }

/-- C9 scenario input. -/
def classifyLines : List String :=
  ["OPENAI_API_KEY=sk-test-123", "SERPER_API_KEY=abc123", "LLM_MODEL=gpt-4",
   "UNKNOWN_FLAG=1"]

/-! ## Helper lemmas -/

/-- createAgent appends exactly one Runtime and one Endpoint node: the
endpoint's map lookup always finds the runtime that was inserted for the
same agent name immediately before. -/
theorem createAgentStep_eq (cfg : StackConfig) (a : AgentConfig) (acc : AgentsAcc) :
    createAgentStep cfg a acc =
      { nodes := acc.nodes ++ [runtimeNode cfg a, endpointNode cfg a],
        outputs := acc.outputs ++ agentOutputs a,
        runtimes := (a.name, "Runtime-" ++ a.name) :: acc.runtimes } := by
  simp [createAgentStep, addAgentOutputsStep, createRuntimeEndpointStep,
    createAgentRuntimeStep, endpointNode, List.lookup]

theorem agentsLoop_nodes (cfg : StackConfig) (as : List AgentConfig) (acc : AgentsAcc) :
    (as.foldl (fun acc a => createAgentStep cfg a acc) acc).nodes =
      acc.nodes ++ as.flatMap (fun a => [runtimeNode cfg a, endpointNode cfg a]) := by
  induction as generalizing acc with
  | nil => simp
  | cons a t ih =>
    simp only [List.foldl_cons]
    rw [ih, createAgentStep_eq]
    simp

theorem agentsLoop_outputs (cfg : StackConfig) (as : List AgentConfig) (acc : AgentsAcc) :
    (as.foldl (fun acc a => createAgentStep cfg a acc) acc).outputs =
      acc.outputs ++ as.flatMap agentOutputs := by
  induction as generalizing acc with
  | nil => simp
  | cons a t ih =>
    simp only [List.foldl_cons]
    rw [ih, createAgentStep_eq]
    simp

theorem buildAgentsAcc_nodes (cfg : StackConfig) :
    (buildAgentsAcc cfg).nodes =
      cfg.agents.flatMap (fun a => [runtimeNode cfg a, endpointNode cfg a]) := by
  simp [buildAgentsAcc, agentsLoop_nodes]

theorem buildAgentsAcc_outputs (cfg : StackConfig) :
    (buildAgentsAcc cfg).outputs = cfg.agents.flatMap agentOutputs := by
  simp [buildAgentsAcc, agentsLoop_outputs]

theorem kind_vpcNodes (cfg : StackConfig) :
    ∀ n ∈ vpcNodes cfg, n.kind = .network := by
  intro n hn
  unfold vpcNodes at hn
  split at hn <;> simp_all [Node.kind]

theorem kind_securityGroupNodes (cfg : StackConfig) :
    ∀ n ∈ securityGroupNodes cfg, n.kind = .securityBoundary := by
  intro n hn
  unfold securityGroupNodes at hn
  split at hn <;> simp_all [Node.kind]

theorem kind_secretNodes (cfg : StackConfig) :
    ∀ n ∈ secretNodes cfg, n.kind = .secretStore := by
  intro n hn
  unfold secretNodes at hn
  split at hn
  · simp at hn
  · split at hn <;> simp_all [Node.kind]

theorem kind_roleNodes (cfg : StackConfig) :
    ∀ n ∈ roleNodes cfg, n.kind = .identity := by
  intro n hn
  unfold roleNodes at hn
  split at hn <;> simp_all [Node.kind]

theorem kind_logGroupNodes (cfg : StackConfig) :
    ∀ n ∈ logGroupNodes cfg, n.kind = .logSink := by
  intro n hn
  unfold logGroupNodes at hn
  split at hn
  · simp at hn
  · split at hn <;> simp_all [Node.kind]

theorem kind_gatewayNodes (cfg : StackConfig) :
    ∀ n ∈ gatewayNodes cfg, n.kind = .gatewayKind := by
  intro n hn
  unfold gatewayNodes at hn
  split at hn
  · simp at hn
  · split at hn <;> simp_all [Node.kind]

theorem kind_runtimeNode (cfg : StackConfig) (a : AgentConfig) :
    (runtimeNode cfg a).kind = .runtimeKind := by
  simp [runtimeNode, Node.kind]

theorem kind_endpointNode (cfg : StackConfig) (a : AgentConfig) :
    (endpointNode cfg a).kind = .endpointKind := by
  simp [endpointNode, Node.kind]

/-- Every node of the pre-agent section has one of the five
infrastructure kinds. -/
theorem kind_preNodes (cfg : StackConfig) :
    ∀ n ∈ vpcNodes cfg ++ securityGroupNodes cfg ++ secretNodes cfg
        ++ roleNodes cfg ++ logGroupNodes cfg,
      n.kind = .network ∨ n.kind = .securityBoundary ∨ n.kind = .secretStore
        ∨ n.kind = .identity ∨ n.kind = .logSink := by
  intro n hn
  simp only [List.mem_append] at hn
  rcases hn with ((((h | h) | h) | h) | h)
  · exact Or.inl (kind_vpcNodes cfg n h)
  · exact Or.inr (Or.inl (kind_securityGroupNodes cfg n h))
  · exact Or.inr (Or.inr (Or.inl (kind_secretNodes cfg n h)))
  · exact Or.inr (Or.inr (Or.inr (Or.inl (kind_roleNodes cfg n h))))
  · exact Or.inr (Or.inr (Or.inr (Or.inr (kind_logGroupNodes cfg n h))))

theorem endpointInfo_eq_none_of_kind (n : Node) (h : n.kind ≠ NodeKind.endpointKind) :
    n.endpointInfo = none := by
  cases n <;> simp_all [Node.kind, Node.endpointInfo]

theorem runtimeIdName_eq_none_of_kind (n : Node) (h : n.kind ≠ NodeKind.runtimeKind) :
    n.runtimeIdName = none := by
  cases n <;> simp_all [Node.kind, Node.runtimeIdName]

theorem agents_filter_kind_runtime (cfg : StackConfig) (as : List AgentConfig) :
    ((as.flatMap fun a => [runtimeNode cfg a, endpointNode cfg a]).filter
      (fun n => n.kind == .runtimeKind)).length = as.length := by
  induction as with
  | nil => simp
  | cons a t ih =>
    rw [List.flatMap_cons, List.filter_append, List.length_append, ih,
      List.filter_cons, List.filter_cons, List.filter_nil,
      if_pos (by rw [kind_runtimeNode]; rfl),
      if_neg (by rw [kind_endpointNode]; simp)]
    simp [Nat.add_comm]

theorem agents_filter_kind_endpoint (cfg : StackConfig) (as : List AgentConfig) :
    ((as.flatMap fun a => [runtimeNode cfg a, endpointNode cfg a]).filter
      (fun n => n.kind == .endpointKind)).length = as.length := by
  induction as with
  | nil => simp
  | cons a t ih =>
    rw [List.flatMap_cons, List.filter_append, List.length_append, ih,
      List.filter_cons, List.filter_cons, List.filter_nil,
      if_neg (by rw [kind_runtimeNode]; simp),
      if_pos (by rw [kind_endpointNode]; rfl)]
    simp [Nat.add_comm]

theorem agents_filter_runtimeIdName (cfg : StackConfig) (as : List AgentConfig)
    (nm : String) :
    ((as.flatMap fun a => [runtimeNode cfg a, endpointNode cfg a]).filter
      (fun n => n.runtimeIdName == some ("Runtime-" ++ nm, nm))).length
      = List.count nm (as.map (·.name)) := by
  induction as with
  | nil => simp
  | cons a t ih =>
    rw [List.flatMap_cons, List.filter_append, List.length_append, ih,
      List.map_cons, List.count_cons, List.filter_cons, List.filter_cons, List.filter_nil]
    by_cases h : a.name = nm
    · subst h
      rw [if_pos (by simp [runtimeNode, Node.runtimeIdName]),
        if_neg (by simp [endpointNode, Node.runtimeIdName])]
      simp [Nat.add_comm]
    · rw [if_neg (by simp [runtimeNode, Node.runtimeIdName, h]),
        if_neg (by simp [endpointNode, Node.runtimeIdName])]
      simp [h, Ne.symm h]

theorem endpoint_mem_agents (cfg : StackConfig) (as : List AgentConfig) (e : Node)
    (nm rid : String)
    (he : e ∈ as.flatMap fun a => [runtimeNode cfg a, endpointNode cfg a])
    (hinfo : e.endpointInfo = some (nm, rid)) :
    ∃ a ∈ as, e = endpointNode cfg a ∧ nm = a.name ∧ rid = "Runtime-" ++ a.name := by
  rcases List.mem_flatMap.mp he with ⟨a, ha, hmem⟩
  simp only [List.mem_cons, List.mem_singleton, List.not_mem_nil, or_false] at hmem
  rcases hmem with h | h
  · subst h
    simp [runtimeNode, Node.endpointInfo] at hinfo
  · subst h
    simp only [endpointNode, Node.endpointInfo, Option.some.injEq, Prod.mk.injEq] at hinfo
    exact ⟨a, ha, rfl, hinfo.1.symm, hinfo.2.symm⟩

/-! Helper lemmas about the deploy orchestrator. -/

theorem createOrUpdateSecret_dryRun (w : DeployWorld) (nm : String) (g : SecretGroup) :
    createOrUpdateSecret w nm g true = (.ok (), []) := by
  by_cases h : g.keys.isEmpty <;> simp [createOrUpdateSecret, h]

theorem processGroups_dryRun (w : DeployWorld) (pfx : String) (gs : List SecretGroup) :
    processGroups w true pfx gs = (.ok (), []) := by
  induction gs with
  | nil => rfl
  | cons g t ih => simp [processGroups, createOrUpdateSecret_dryRun, ih]

theorem pushSecretsStep_dryRun (w : DeployWorld) (pfx : String) :
    pushSecretsStep w true pfx = (.ok (), []) := by
  cases h : w.envFile <;> simp [pushSecretsStep, h, processGroups_dryRun]

theorem createOrUpdateSecret_calls (w : DeployWorld) (nm : String) (g : SecretGroup)
    (d : Bool) :
    ∀ c ∈ (createOrUpdateSecret w nm g d).2,
      c = .putSecretValue nm ∨ c = .createSecret nm := by
  intro c hc
  by_cases h1 : g.keys.isEmpty
  · simp [createOrUpdateSecret, h1] at hc
  · by_cases h2 : d
    · simp [createOrUpdateSecret, h1, h2] at hc
    · cases hp : w.putSecret nm with
      | ok => simp_all [createOrUpdateSecret, h1, h2, hp]
      | err m => simp_all [createOrUpdateSecret, h1, h2, hp]
      | notFound =>
        cases hcr : w.createSecretRes nm <;>
          simp_all [createOrUpdateSecret, h1, h2, hp, hcr]

theorem processGroups_calls (w : DeployWorld) (d : Bool) (pfx : String)
    (gs : List SecretGroup) :
    ∀ c ∈ (processGroups w d pfx gs).2,
      ∃ nm, c = .putSecretValue nm ∨ c = .createSecret nm := by
  induction gs with
  | nil => simp [processGroups]
  | cons g t ih =>
    intro c hc
    simp only [processGroups] at hc
    split at hc
    · exact ⟨pfx ++ "/" ++ g.name, createOrUpdateSecret_calls w _ g d c hc⟩
    · rcases List.mem_append.mp hc with h | h
      · exact ⟨pfx ++ "/" ++ g.name, createOrUpdateSecret_calls w _ g d c h⟩
      · exact ih c h

theorem pushSecretsStep_calls (w : DeployWorld) (d : Bool) (pfx : String) :
    ∀ c ∈ (pushSecretsStep w d pfx).2,
      ∃ nm, c = .putSecretValue nm ∨ c = .createSecret nm := by
  intro c hc
  unfold pushSecretsStep at hc
  split at hc
  · simp at hc
  · exact processGroups_calls w d pfx _ c hc

theorem secretPayload_eq_none_of_kind (n : Node) (h : n.kind ≠ NodeKind.secretStore) :
    n.secretPayload = none := by
  cases n <;> simp_all [Node.kind, Node.secretPayload]

/-- The node-list decomposition of NewAgentCoreStack with the agent loop
flattened. -/
theorem buildNodes_decomp (cfg : StackConfig) :
    buildNodes cfg =
      (vpcNodes cfg ++ securityGroupNodes cfg ++ secretNodes cfg ++ roleNodes cfg
        ++ logGroupNodes cfg)
      ++ (cfg.agents.flatMap fun a => [runtimeNode cfg a, endpointNode cfg a])
      ++ gatewayNodes cfg := by
  simp [buildNodes, buildAgentsAcc_nodes]

/-! ## Claim theorems -/

/-- C1: For every valid StackSpec, Build is deterministic: two invocations on
identical (deep-equal) StackSpec inputs produce identical ordered
resource-node lists (and identical output lists).  The builder is a pure
function of the configuration: no map-iteration order reaches the node
list. -/
theorem build_deterministic (s t : StackConfig) (h : s = t) :
    buildNodes s = buildNodes t ∧ buildOutputs s = buildOutputs t := by
  subst h
  exact ⟨rfl, rfl⟩

theorem build_deterministic_witness :
    buildNodes witnessStack = buildNodes witnessStack ∧
    buildOutputs witnessStack = buildOutputs witnessStack :=
  build_deterministic witnessStack witnessStack rfl

/-- C2: For a StackSpec with N agents (agent names unique, as stack
validation requires), the built output contains exactly N Runtime nodes and
exactly N Endpoint nodes, and each Endpoint node references exactly one
Runtime node, whose agent name matches the Endpoint's agent name. -/
theorem runtime_endpoint_pairing (cfg : StackConfig)
    (h : (cfg.agents.map (·.name)).Nodup) :
    ((buildNodes cfg).filter (fun n => n.kind == NodeKind.runtimeKind)).length
        = cfg.agents.length ∧
    ((buildNodes cfg).filter (fun n => n.kind == NodeKind.endpointKind)).length
        = cfg.agents.length ∧
    ∀ e ∈ buildNodes cfg, ∀ nm rid, e.endpointInfo = some (nm, rid) →
      rid = "Runtime-" ++ nm ∧
      ((buildNodes cfg).filter
        (fun n => n.runtimeIdName == some (rid, nm))).length = 1 := by
  refine ⟨?_, ?_, ?_⟩
  · have h1 : (vpcNodes cfg ++ securityGroupNodes cfg ++ secretNodes cfg ++ roleNodes cfg
        ++ logGroupNodes cfg).filter (fun n => n.kind == NodeKind.runtimeKind) = [] :=
      List.filter_eq_nil_iff.mpr (fun n hn => by
        rcases kind_preNodes cfg n hn with h' | h' | h' | h' | h' <;> simp [h'])
    have h2 : (gatewayNodes cfg).filter (fun n => n.kind == NodeKind.runtimeKind) = [] :=
      List.filter_eq_nil_iff.mpr (fun n hn => by simp [kind_gatewayNodes cfg n hn])
    rw [buildNodes_decomp, List.filter_append, List.filter_append, h1, h2,
      List.nil_append, List.append_nil, agents_filter_kind_runtime]
  · have h1 : (vpcNodes cfg ++ securityGroupNodes cfg ++ secretNodes cfg ++ roleNodes cfg
        ++ logGroupNodes cfg).filter (fun n => n.kind == NodeKind.endpointKind) = [] :=
      List.filter_eq_nil_iff.mpr (fun n hn => by
        rcases kind_preNodes cfg n hn with h' | h' | h' | h' | h' <;> simp [h'])
    have h2 : (gatewayNodes cfg).filter (fun n => n.kind == NodeKind.endpointKind) = [] :=
      List.filter_eq_nil_iff.mpr (fun n hn => by simp [kind_gatewayNodes cfg n hn])
    rw [buildNodes_decomp, List.filter_append, List.filter_append, h1, h2,
      List.nil_append, List.append_nil, agents_filter_kind_endpoint]
  · intro e he nm rid hinfo
    rw [buildNodes_decomp] at he
    rcases List.mem_append.mp he with he1 | hgw
    · rcases List.mem_append.mp he1 with hpre | hag
      · exfalso
        have hek : e.endpointInfo = none := by
          refine endpointInfo_eq_none_of_kind e ?_
          rcases kind_preNodes cfg e hpre with h' | h' | h' | h' | h' <;> simp [h']
        rw [hek] at hinfo
        exact Option.noConfusion hinfo
      · rcases endpoint_mem_agents cfg cfg.agents e nm rid hag hinfo with
          ⟨a, ha, _, hnm, hrid⟩
        subst hnm
        subst hrid
        refine ⟨rfl, ?_⟩
        have g1 : (vpcNodes cfg ++ securityGroupNodes cfg ++ secretNodes cfg ++ roleNodes cfg
            ++ logGroupNodes cfg).filter
            (fun n => n.runtimeIdName == some ("Runtime-" ++ a.name, a.name)) = [] :=
          List.filter_eq_nil_iff.mpr (fun n hn => by
            have : n.runtimeIdName = none := by
              refine runtimeIdName_eq_none_of_kind n ?_
              rcases kind_preNodes cfg n hn with h' | h' | h' | h' | h' <;> simp [h']
            simp [this])
        have g2 : (gatewayNodes cfg).filter
            (fun n => n.runtimeIdName == some ("Runtime-" ++ a.name, a.name)) = [] :=
          List.filter_eq_nil_iff.mpr (fun n hn => by
            have : n.runtimeIdName = none :=
              runtimeIdName_eq_none_of_kind n (by simp [kind_gatewayNodes cfg n hn])
            simp [this])
        rw [buildNodes_decomp, List.filter_append, List.filter_append, g1, g2,
          List.nil_append, List.append_nil, agents_filter_runtimeIdName]
        exact List.count_eq_one_of_mem h (List.mem_map_of_mem _ ha)
    · exfalso
      have hek : e.endpointInfo = none :=
        endpointInfo_eq_none_of_kind e (by simp [kind_gatewayNodes cfg e hgw])
      rw [hek] at hinfo
      exact Option.noConfusion hinfo

theorem runtime_endpoint_pairing_witness :
    ((buildNodes witnessStack).filter
        (fun n => n.kind == NodeKind.runtimeKind)).length
        = witnessStack.agents.length ∧
    ((buildNodes witnessStack).filter
        (fun n => n.kind == NodeKind.endpointKind)).length
        = witnessStack.agents.length ∧
    ∀ e ∈ buildNodes witnessStack, ∀ nm rid, e.endpointInfo = some (nm, rid) →
      rid = "Runtime-" ++ nm ∧
      ((buildNodes witnessStack).filter
        (fun n => n.runtimeIdName == some (rid, nm))).length = 1 :=
  runtime_endpoint_pairing witnessStack (by decide)

/-- C9: Secret-key classification is by exact name match against the fixed
per-category lists and unmatched keys are dropped: OPENAI_API_KEY lands in
llm, SERPER_API_KEY in search, LLM_MODEL in config, and UNKNOWN_FLAG in no
group at all. -/
theorem secret_classification :
    (parseEnvLines classifyLines defaultGroups).map (fun g => (g.name, g.keys)) =
      [("llm", [("OPENAI_API_KEY", "sk-test-123")]),
       ("search", [("SERPER_API_KEY", "abc123")]),
       ("config", [("LLM_MODEL", "gpt-4")])] ∧
    ∀ g ∈ parseEnvLines classifyLines defaultGroups,
      g.keys.lookup "UNKNOWN_FLAG" = none := by
  constructor
  · rfl
  · decide

/-- C10: When createSecrets is requested with a non-empty key-value map, the
single SecretStore node the builder emits carries an empty secret-value
payload: none of the supplied pairs is placed into the created secret's
value. -/
theorem created_secret_empty_payload (cfg : StackConfig) (sc : SecretsConfig)
    (hs : cfg.secrets = some sc) (hc : sc.createSecrets = true)
    (hv : sc.secretValues ≠ []) :
    (buildNodes cfg).filter (fun n => n.kind == NodeKind.secretStore) =
      [Node.secret
        (if sc.secretName = "" then cfg.stackName ++ "-secrets" else sc.secretName)
        ("Secrets for " ++ cfg.stackName ++ " AgentCore agents") []] ∧
    ∀ n ∈ buildNodes cfg, ∀ kvs, n.secretPayload = some kvs → kvs = [] := by
  have hsec : secretNodes cfg =
      [Node.secret
        (if sc.secretName = "" then cfg.stackName ++ "-secrets" else sc.secretName)
        ("Secrets for " ++ cfg.stackName ++ " AgentCore agents") []] := by
    unfold secretNodes
    rw [hs]
    dsimp only
    rw [if_pos ⟨hc, List.length_pos.mpr hv⟩]
  constructor
  · have h1 : (vpcNodes cfg).filter (fun n => n.kind == NodeKind.secretStore) = [] :=
      List.filter_eq_nil_iff.mpr (fun n hn => by simp [kind_vpcNodes cfg n hn])
    have h2 : (securityGroupNodes cfg).filter
        (fun n => n.kind == NodeKind.secretStore) = [] :=
      List.filter_eq_nil_iff.mpr (fun n hn => by simp [kind_securityGroupNodes cfg n hn])
    have h4 : (roleNodes cfg).filter (fun n => n.kind == NodeKind.secretStore) = [] :=
      List.filter_eq_nil_iff.mpr (fun n hn => by simp [kind_roleNodes cfg n hn])
    have h5 : (logGroupNodes cfg).filter (fun n => n.kind == NodeKind.secretStore) = [] :=
      List.filter_eq_nil_iff.mpr (fun n hn => by simp [kind_logGroupNodes cfg n hn])
    have h6 : ((cfg.agents.flatMap fun a => [runtimeNode cfg a, endpointNode cfg a]).filter
        (fun n => n.kind == NodeKind.secretStore)) = [] :=
      List.filter_eq_nil_iff.mpr (fun n hn => by
        rcases List.mem_flatMap.mp hn with ⟨a, _, hmem⟩
        simp only [List.mem_cons, List.mem_singleton, List.not_mem_nil, or_false] at hmem
        rcases hmem with hmem | hmem <;> subst hmem
        · simp [kind_runtimeNode]
        · simp [kind_endpointNode])
    have h7 : (gatewayNodes cfg).filter (fun n => n.kind == NodeKind.secretStore) = [] :=
      List.filter_eq_nil_iff.mpr (fun n hn => by simp [kind_gatewayNodes cfg n hn])
    rw [buildNodes_decomp, List.filter_append, List.filter_append, List.filter_append,
      List.filter_append, List.filter_append, List.filter_append,
      h1, h2, h4, h5, h6, h7, hsec]
    simp [Node.kind]
  · intro n hn kvs hp
    rw [buildNodes_decomp] at hn
    have hnk : n.kind = NodeKind.secretStore := by
      by_contra hk
      rw [secretPayload_eq_none_of_kind n hk] at hp
      exact Option.noConfusion hp
    rcases List.mem_append.mp hn with hn1 | hgw
    · rcases List.mem_append.mp hn1 with hpre | hag
      · rcases List.mem_append.mp hpre with hp1 | h5
        · rcases List.mem_append.mp hp1 with hp2 | h4
          · rcases List.mem_append.mp hp2 with hp3 | h3
            · rcases List.mem_append.mp hp3 with h1 | h2
              · rw [kind_vpcNodes cfg n h1] at hnk
                exact absurd hnk (by simp)
              · rw [kind_securityGroupNodes cfg n h2] at hnk
                exact absurd hnk (by simp)
            · rw [hsec] at h3
              simp only [List.mem_singleton] at h3
              subst h3
              simp [Node.secretPayload] at hp
              exact hp
          · rw [kind_roleNodes cfg n h4] at hnk
            exact absurd hnk (by simp)
        · rw [kind_logGroupNodes cfg n h5] at hnk
          exact absurd hnk (by simp)
      · exfalso
        rcases List.mem_flatMap.mp hag with ⟨a, _, hmem⟩
        simp only [List.mem_cons, List.mem_singleton, List.not_mem_nil, or_false] at hmem
        rcases hmem with hmem | hmem <;> subst hmem
        · rw [kind_runtimeNode] at hnk
          exact absurd hnk (by simp)
        · rw [kind_endpointNode] at hnk
          exact absurd hnk (by simp)
    · rw [kind_gatewayNodes cfg n hgw] at hnk
      exact absurd hnk (by simp)

/-- For positive requests, createLogGroup's switch implements exactly the
spec's round-up rule. -/
theorem retentionSwitch_roundup (r : Int) (hr : 1 ≤ r) :
    retentionSwitch r = specRoundUpTier r := by
  unfold retentionSwitch specRoundUpTier finiteTiers
  by_cases h1 : r ≤ 1
  · rw [if_pos h1]
    simp [List.find?, tierDays, h1]
  · rw [if_neg h1]
    by_cases h7 : r ≤ 7
    · rw [if_pos h7]
      simp [List.find?, tierDays, h1, h7]
    · rw [if_neg h7]
      by_cases h14 : r ≤ 14
      · rw [if_pos h14]
        simp [List.find?, tierDays, h1, h7, h14]
      · rw [if_neg h14]
        by_cases h30 : r ≤ 30
        · rw [if_pos h30]
          simp [List.find?, tierDays, h1, h7, h14, h30]
        · rw [if_neg h30]
          by_cases h90 : r ≤ 90
          · rw [if_pos h90]
            simp [List.find?, tierDays, h1, h7, h14, h30, h90]
          · rw [if_neg h90]
            by_cases h180 : r ≤ 180
            · rw [if_pos h180]
              simp [List.find?, tierDays, h1, h7, h14, h30, h90, h180]
            · rw [if_neg h180]
              by_cases h365 : r ≤ 365
              · rw [if_pos h365]
                simp [List.find?, tierDays, h1, h7, h14, h30, h90, h180, h365]
              · rw [if_neg h365]
                simp [List.find?, tierDays, h1, h7, h14, h30, h90, h180, h365]

/-- C4 counterexample: retention requests 0 and -5 are not rejected as
invalid: a LogSink node is emitted in both cases, 0 being defaulted to the
30-day tier and -5 mapping to the 1-day tier. -/
theorem retention_counterexample :
    logGroupNodes retentionZeroStack =
      [Node.logGroup "/aws/agentcore/s" LogRetention.oneMonth "destroy"] ∧
    Node.logGroup "/aws/agentcore/s" LogRetention.oneMonth "destroy"
      ∈ buildNodes retentionZeroStack ∧
    logGroupNodes retentionNegStack =
      [Node.logGroup "/aws/agentcore/s" LogRetention.oneDay "destroy"] ∧
    Node.logGroup "/aws/agentcore/s" LogRetention.oneDay "destroy"
      ∈ buildNodes retentionNegStack := by
  decide

/-- C4 amended: when logging is enabled, the emitted LogSink carries the
retention produced by the mapping: for r ≥ 1, the smallest supported tier
≥ r (unlimited above 365); r = 0 is treated as unset and defaulted to the
30-day tier; r < 0 maps to the 1-day tier.  No retention request is
rejected. -/
theorem log_retention_amended (cfg : StackConfig) (obs : ObservabilityConfig)
    (hobs : cfg.observability = some obs) (hcw : obs.enableCloudWatchLogs = true) :
    logGroupNodes cfg =
      [Node.logGroup ("/aws/agentcore/" ++ cfg.stackName)
        (mapLogRetention obs.logRetentionDays)
        (if cfg.removalPolicy = "retain" then "retain" else "destroy")] ∧
    (∀ n ∈ logGroupNodes cfg, n ∈ buildNodes cfg) ∧
    (1 ≤ obs.logRetentionDays →
      mapLogRetention obs.logRetentionDays = specRoundUpTier obs.logRetentionDays) ∧
    (obs.logRetentionDays = 0 → mapLogRetention obs.logRetentionDays = .oneMonth) ∧
    (obs.logRetentionDays < 0 → mapLogRetention obs.logRetentionDays = .oneDay) := by
  refine ⟨?_, ?_, ?_, ?_, ?_⟩
  · unfold logGroupNodes
    rw [hobs]
    dsimp only
    rw [if_pos hcw]
  · intro n hn
    rw [buildNodes_decomp]
    exact List.mem_append.mpr (Or.inl (List.mem_append.mpr (Or.inl
      (List.mem_append.mpr (Or.inr hn)))))
  · intro hr
    unfold mapLogRetention
    rw [if_neg (by omega : ¬ obs.logRetentionDays = 0)]
    exact retentionSwitch_roundup _ hr
  · intro hr
    unfold mapLogRetention
    rw [if_pos hr]
    rfl
  · intro hr
    unfold mapLogRetention retentionSwitch
    rw [if_neg (by omega : ¬ obs.logRetentionDays = 0), if_pos (by omega)]

theorem log_retention_amended_witness :
    logGroupNodes retentionTenStack =
      [Node.logGroup ("/aws/agentcore/" ++ retentionTenStack.stackName)
        (mapLogRetention retentionTenObs.logRetentionDays)
        (if retentionTenStack.removalPolicy = "retain" then "retain" else "destroy")] ∧
    (∀ n ∈ logGroupNodes retentionTenStack, n ∈ buildNodes retentionTenStack) ∧
    (1 ≤ retentionTenObs.logRetentionDays →
      mapLogRetention retentionTenObs.logRetentionDays
        = specRoundUpTier retentionTenObs.logRetentionDays) ∧
    (retentionTenObs.logRetentionDays = 0 →
      mapLogRetention retentionTenObs.logRetentionDays = .oneMonth) ∧
    (retentionTenObs.logRetentionDays < 0 →
      mapLogRetention retentionTenObs.logRetentionDays = .oneDay) :=
  log_retention_amended retentionTenStack retentionTenObs rfl rfl

/-- C5 counterexample: with the allow-list ["m1", "m2"], the created role
carries ONE Bedrock-invoke policy statement listing both resource patterns,
not one capability statement per listed identifier. -/
theorem bedrock_per_model_counterexample :
    twoModelStack.iam.bedrockModelIDs.length = 2 ∧
    (bedrockStatements twoModelStack.iam).length = 1 ∧
    bedrockStatements twoModelStack.iam =
      [⟨"Allow", bedrockInvokeActions,
        ["arn:aws:bedrock:*:*:foundation-model/m1",
         "arn:aws:bedrock:*:*:foundation-model/m2"]⟩] ∧
    (∃ n ∈ buildNodes twoModelStack, n.rolePolicies =
      some (bedrockStatements twoModelStack.iam ++ [logsStatement] ++ [ecrStatement])) := by
  refine ⟨rfl, rfl, rfl, ?_⟩
  decide

/-- C5 amended: when identity creation is requested with model-invocation
access, exactly one Bedrock-invoke capability statement is emitted: with a
non-empty allow-list its resource list carries one resource pattern per
listed identifier; with no allow-list it carries the single wildcard
pattern. -/
theorem bedrock_statements_amended (cfg : StackConfig)
    (hcreate : cfg.iam.roleARN = "") (hbr : cfg.iam.enableBedrockAccess = true) :
    (∃ n ∈ buildNodes cfg, n.rolePolicies =
      some (bedrockStatements cfg.iam ++ [logsStatement] ++ [ecrStatement])) ∧
    ((bedrockStatements cfg.iam ++ [logsStatement] ++ [ecrStatement]).filter
        isBedrockInvokeStatement) = bedrockStatements cfg.iam ∧
    (bedrockStatements cfg.iam).length = 1 ∧
    (cfg.iam.bedrockModelIDs ≠ [] →
      bedrockStatements cfg.iam =
        [⟨"Allow", bedrockInvokeActions,
          cfg.iam.bedrockModelIDs.map bedrockModelPattern⟩]) ∧
    (cfg.iam.bedrockModelIDs = [] →
      bedrockStatements cfg.iam =
        [⟨"Allow", bedrockInvokeActions, ["arn:aws:bedrock:*:*:foundation-model/*"]⟩]) := by
  have hrole : roleNodes cfg =
      [Node.roleCreate (cfg.stackName ++ "-execution-role")
        (bedrockStatements cfg.iam ++ [logsStatement] ++ [ecrStatement])
        (roleSecretGrants cfg) cfg.iam.additionalPolicies
        (if cfg.iam.permissionsBoundaryARN ≠ "" then some cfg.iam.permissionsBoundaryARN
         else none)] := by
    unfold roleNodes
    rw [if_neg (by simp [hcreate])]
  have hbed : ∀ rs, isBedrockInvokeStatement ⟨"Allow", bedrockInvokeActions, rs⟩ = true :=
    fun _ => rfl
  refine ⟨?_, ?_, ?_, ?_, ?_⟩
  · refine ⟨Node.roleCreate (cfg.stackName ++ "-execution-role")
      (bedrockStatements cfg.iam ++ [logsStatement] ++ [ecrStatement])
      (roleSecretGrants cfg) cfg.iam.additionalPolicies
      (if cfg.iam.permissionsBoundaryARN ≠ "" then some cfg.iam.permissionsBoundaryARN
       else none), ?_, rfl⟩
    rw [buildNodes_decomp]
    refine List.mem_append.mpr (Or.inl (List.mem_append.mpr (Or.inl ?_)))
    refine List.mem_append.mpr (Or.inl (List.mem_append.mpr (Or.inr ?_)))
    rw [hrole]
    exact List.mem_singleton.mpr rfl
  · unfold bedrockStatements
    rw [if_pos hbr]
    by_cases hm : cfg.iam.bedrockModelIDs.length > 0
    · rw [if_pos hm]
      rw [List.filter_append, List.filter_append]
      rw [List.filter_cons, if_pos (hbed _), List.filter_nil,
        List.filter_cons, if_neg (by decide), List.filter_nil,
        List.filter_cons, if_neg (by decide), List.filter_nil]
      simp
    · rw [if_neg hm]
      rw [List.filter_append, List.filter_append]
      rw [List.filter_cons, if_pos (hbed _), List.filter_nil,
        List.filter_cons, if_neg (by decide), List.filter_nil,
        List.filter_cons, if_neg (by decide), List.filter_nil]
      simp
  · unfold bedrockStatements
    rw [if_pos hbr]
    by_cases hm : cfg.iam.bedrockModelIDs.length > 0
    · rw [if_pos hm]
      rfl
    · rw [if_neg hm]
      rfl
  · intro hne
    unfold bedrockStatements
    rw [if_pos hbr, if_pos (by simpa using List.length_pos.mpr hne)]
  · intro heq
    unfold bedrockStatements
    rw [if_pos hbr, if_neg (by simp [heq])]

theorem bedrock_statements_amended_witness :
    (∃ n ∈ buildNodes witnessStack, n.rolePolicies =
      some (bedrockStatements witnessStack.iam ++ [logsStatement] ++ [ecrStatement])) ∧
    ((bedrockStatements witnessStack.iam ++ [logsStatement] ++ [ecrStatement]).filter
        isBedrockInvokeStatement) = bedrockStatements witnessStack.iam ∧
    (bedrockStatements witnessStack.iam).length = 1 ∧
    (witnessStack.iam.bedrockModelIDs ≠ [] →
      bedrockStatements witnessStack.iam =
        [⟨"Allow", bedrockInvokeActions,
          witnessStack.iam.bedrockModelIDs.map bedrockModelPattern⟩]) ∧
    (witnessStack.iam.bedrockModelIDs = [] →
      bedrockStatements witnessStack.iam =
        [⟨"Allow", bedrockInvokeActions, ["arn:aws:bedrock:*:*:foundation-model/*"]⟩]) :=
  bedrock_statements_amended witnessStack rfl rfl

/-- None of the stack-level output ids is a gateway label. -/
theorem stackLevelOutputs_not_gateway (cfg : StackConfig) :
    ∀ o ∈ stackLevelOutputs cfg, o.id ∉ gatewayOutputIds := by
  intro o ho
  unfold stackLevelOutputs at ho
  rcases List.mem_append.mp ho with h | h
  · rcases List.mem_append.mp h with h | h
    · rcases List.mem_append.mp h with h | h
      · rcases List.mem_append.mp h with h | h
        · split at h
          · simp only [List.mem_singleton] at h
            subst h
            simp [gatewayOutputIds]
          · simp at h
        · simp only [List.mem_singleton] at h
          subst h
          simp [gatewayOutputIds]
      · simp only [List.mem_singleton] at h
        subst h
        simp [gatewayOutputIds]
    · split at h
      · simp only [List.mem_singleton] at h
        subst h
        simp [gatewayOutputIds]
      · simp at h
  · simp only [List.mem_singleton] at h
    subst h
    simp [gatewayOutputIds]

/-- Agent outputs can never collide with a gateway-labeled output id: their
ids start with "Agent-" and are strictly longer than any gateway label. -/
theorem agentOutputs_not_gateway (a : AgentConfig) :
    ∀ o ∈ agentOutputs a, o.id ∉ gatewayOutputIds := by
  have hlen : ∀ sfx : String, 6 ≤ sfx.length →
      ("Agent-" ++ a.name ++ sfx) ∉ gatewayOutputIds := by
    intro sfx hs hmem
    simp only [gatewayOutputIds, List.mem_cons, List.not_mem_nil, or_false] at hmem
    have e1 : ("Agent-" : String).length = 6 := rfl
    rcases hmem with he | he | he
    · have hL := congrArg String.length he
      rw [String.length_append, String.length_append, e1] at hL
      have e2 : ("GatewayArn" : String).length = 10 := rfl
      rw [e2] at hL
      omega
    · have hL := congrArg String.length he
      rw [String.length_append, String.length_append, e1] at hL
      have e2 : ("GatewayId" : String).length = 9 := rfl
      rw [e2] at hL
      omega
    · have hL := congrArg String.length he
      rw [String.length_append, String.length_append, e1] at hL
      have e2 : ("GatewayUrl" : String).length = 10 := rfl
      rw [e2] at hL
      omega
  intro o ho
  simp only [agentOutputs, List.mem_cons, List.not_mem_nil, or_false] at ho
  rcases ho with rfl | rfl | rfl | rfl
  · exact hlen "-RuntimeArn" (by decide)
  · exact hlen "-RuntimeId" (by decide)
  · exact hlen "-EndpointArn" (by decide)
  · exact hlen "-Image" (by decide)

/-- C6: A Gateway node is emitted iff GatewaySpec is present with
enabled=true; when absent or disabled, no Gateway node appears and no
gateway-labeled output entry (GatewayArn, GatewayId, GatewayUrl) is
produced. -/
theorem gateway_iff_enabled (cfg : StackConfig) :
    ((buildNodes cfg).any (fun n => n.kind == NodeKind.gatewayKind)
      = gatewayRequested cfg) ∧
    (gatewayRequested cfg = false →
      ∀ o ∈ buildOutputs cfg, o.id ∉ gatewayOutputIds) := by
  constructor
  · have h1 : (vpcNodes cfg ++ securityGroupNodes cfg ++ secretNodes cfg ++ roleNodes cfg
        ++ logGroupNodes cfg).any (fun n => n.kind == NodeKind.gatewayKind) = false := by
      rw [List.any_eq_false]
      intro n hn
      rcases kind_preNodes cfg n hn with h' | h' | h' | h' | h' <;> simp [h']
    have h2 : ((cfg.agents.flatMap fun a => [runtimeNode cfg a, endpointNode cfg a]).any
        (fun n => n.kind == NodeKind.gatewayKind)) = false := by
      rw [List.any_eq_false]
      intro n hn
      rcases List.mem_flatMap.mp hn with ⟨a, _, hmem⟩
      simp only [List.mem_cons, List.mem_singleton, List.not_mem_nil, or_false] at hmem
      rcases hmem with hmem | hmem <;> subst hmem
      · simp [kind_runtimeNode]
      · simp [kind_endpointNode]
    rw [buildNodes_decomp, List.any_append, List.any_append, h1, h2]
    cases hg : cfg.gateway with
    | none => simp [gatewayNodes, gatewayRequested, hg]
    | some g =>
      by_cases he : g.enabled <;>
        simp [gatewayNodes, gatewayRequested, hg, he, Node.kind]
  · intro hreq o ho
    unfold buildOutputs at ho
    rw [buildAgentsAcc_outputs] at ho
    have hgw : gatewayOutputs cfg = [] := by
      unfold gatewayOutputs
      rw [hreq]
      rfl
    rw [hgw, List.append_nil] at ho
    rcases List.mem_append.mp ho with hag | hst
    · rcases List.mem_flatMap.mp hag with ⟨a, _, hmem⟩
      exact agentOutputs_not_gateway a o hmem
    · exact stackLevelOutputs_not_gateway cfg o hst

theorem gateway_iff_enabled_witness :
    ((buildNodes gatewayStack).any (fun n => n.kind == NodeKind.gatewayKind)
      = gatewayRequested gatewayStack) ∧
    ∀ o ∈ buildOutputs witnessStack, o.id ∉ gatewayOutputIds :=
  ⟨(gateway_iff_enabled gatewayStack).1, (gateway_iff_enabled witnessStack).2 rfl⟩

/-- The per-group loop reads only the secret-store outcomes of the world. -/
theorem processGroups_congr (w w' : DeployWorld)
    (hput : w.putSecret = w'.putSecret) (hcr : w.createSecretRes = w'.createSecretRes)
    (d : Bool) (pfx : String) (gs : List SecretGroup) :
    processGroups w d pfx gs = processGroups w' d pfx gs := by
  induction gs with
  | nil => rfl
  | cons g t ih =>
    have hcu : createOrUpdateSecret w (pfx ++ "/" ++ g.name) g d
        = createOrUpdateSecret w' (pfx ++ "/" ++ g.name) g d := by
      unfold createOrUpdateSecret
      rw [hput, hcr]
    simp only [processGroups, hcu, ih]

theorem pushSecretsStep_congr (w w' : DeployWorld) (hef : w.envFile = w'.envFile)
    (hput : w.putSecret = w'.putSecret) (hcr : w.createSecretRes = w'.createSecretRes)
    (d : Bool) (pfx : String) :
    pushSecretsStep w d pfx = pushSecretsStep w' d pfx := by
  unfold pushSecretsStep
  rw [hef]
  cases w'.envFile with
  | none => rfl
  | some lines => exact processGroups_congr w w' hput hcr d pfx _

/-- run() reads only these world fields; in particular the bootstrap
command's outcome is consulted by no step. -/
theorem runDeploy_congr (args : DeployArgs) (w w' : DeployWorld)
    (h1 : w.awsConfig = w'.awsConfig) (h2 : w.stsAccount = w'.stsAccount)
    (h3 : w.envFile = w'.envFile) (h4 : w.putSecret = w'.putSecret)
    (h5 : w.createSecretRes = w'.createSecretRes)
    (h6 : w.cdkDeployRun = w'.cdkDeployRun) :
    runDeploy args w = runDeploy args w' := by
  have hps : pushSecretsStep w args.dryRun args.pfx
      = pushSecretsStep w' args.dryRun args.pfx :=
    pushSecretsStep_congr w w' h3 h4 h5 _ _
  have hds : deployStep w args.dryRun = deployStep w' args.dryRun := by
    unfold deployStep
    rw [h6]
  unfold runDeploy
  rw [h1, h2, hps, hds]

theorem runDeploy_bootstrap_irrel (args : DeployArgs) (w : DeployWorld)
    (b : Except String Unit) :
    runDeploy args { w with bootstrapRun := b } = runDeploy args w :=
  runDeploy_congr args { w with bootstrapRun := b } w rfl rfl rfl rfl rfl rfl

/-- C7 counterexample: dry-run mode still makes external calls and can still
report their failure.  With the STS GetCallerIdentity call failing, a
dry-run invocation reports that error; and even with everything healthy a
dry-run run executes the external commands "go mod tidy" and "cdk diff". -/
theorem dryrun_external_failure_counterexample :
    (runDeploy dryRunArgs stsFailWorld).1 = .error "getting AWS identity: denied" ∧
    ExtCall.stsGetCallerIdentity ∈ (runDeploy dryRunArgs stsFailWorld).2 ∧
    ExtCall.goModTidy ∈ (runDeploy dryRunArgs allOkWorld).2 ∧
    ExtCall.cdkDiff ∈ (runDeploy dryRunArgs allOkWorld).2 := by
  decide

/-- C7 amended: in dry-run mode the secret-push, bootstrap and deploy steps
never report an external-tool failure — no secret-store call is made,
bootstrap runs no command, and the failures of the commands deploy does run
(go mod tidy, cdk diff) are discarded; but dry-run still loads the AWS
config and calls STS GetCallerIdentity, and a failure there aborts the run
with an error. -/
theorem dryrun_no_step_failures (args : DeployArgs) (w : DeployWorld) (acct : String)
    (hd : args.dryRun = true) (hc : w.awsConfig = .ok ())
    (hs : w.stsAccount = .ok acct) :
    (runDeploy args w).1 = .ok () ∧
    ∀ c ∈ (runDeploy args w).2,
      c = ExtCall.loadConfig ∨ c = ExtCall.stsGetCallerIdentity
        ∨ c = ExtCall.goModTidy ∨ c = ExtCall.cdkDiff := by
  have hpush : (if args.skipSecrets then ((.ok () : Except String Unit), ([] : List ExtCall))
      else pushSecretsStep w args.dryRun args.pfx) = (.ok (), []) := by
    by_cases hsk : args.skipSecrets
    · rw [if_pos hsk]
    · rw [if_neg hsk, hd, pushSecretsStep_dryRun]
  have hboot : (if args.skipBootstrap then ([] : List ExtCall)
      else bootstrapStep args.dryRun) = [] := by
    by_cases hsk : args.skipBootstrap
    · rw [if_pos hsk]
    · rw [if_neg hsk, hd]
      rfl
  have hdep : deployStep w args.dryRun = (.ok (), [.goModTidy, .cdkDiff]) := by
    rw [hd]
    rfl
  unfold runDeploy
  rw [hc, hs, hpush, hboot, hdep]
  exact ⟨rfl, by intro c hc'; simp at hc'; tauto⟩

theorem dryrun_no_step_failures_witness :
    (runDeploy dryRunArgs allOkWorld).1 = .ok () ∧
    ∀ c ∈ (runDeploy dryRunArgs allOkWorld).2,
      c = ExtCall.loadConfig ∨ c = ExtCall.stsGetCallerIdentity
        ∨ c = ExtCall.goModTidy ∨ c = ExtCall.cdkDiff :=
  dryrun_no_step_failures dryRunArgs allOkWorld "123456789012" rfl rfl rfl

/-- C8: in a real (non-dry-run) deployment, a failure of the secret-push
step aborts the pipeline before bootstrap and deploy run, while the
bootstrap step's outcome is discarded entirely: the run result does not
depend on it and the deploy step still executes. -/
theorem push_aborts_bootstrap_ignored (args : DeployArgs) (w : DeployWorld)
    (acct : String) (hd : args.dryRun = false) (hc : w.awsConfig = .ok ())
    (hs : w.stsAccount = .ok acct) :
    (∀ e, args.skipSecrets = false →
      (pushSecretsStep w false args.pfx).1 = .error e →
        (runDeploy args w).1 = .error ("pushing secrets: " ++ e) ∧
        ExtCall.cdkBootstrap ∉ (runDeploy args w).2 ∧
        ExtCall.goModTidy ∉ (runDeploy args w).2 ∧
        ExtCall.cdkDeploy ∉ (runDeploy args w).2) ∧
    (∀ b₁ b₂ : Except String Unit,
      runDeploy args { w with bootstrapRun := b₁ }
        = runDeploy args { w with bootstrapRun := b₂ }) ∧
    ((args.skipSecrets = true ∨ (pushSecretsStep w false args.pfx).1 = .ok ()) →
      ExtCall.cdkDeploy ∈ (runDeploy args w).2) := by
  refine ⟨?_, ?_, ?_⟩
  · intro e hsk hfail
    have hpush : (if args.skipSecrets then ((.ok () : Except String Unit), ([] : List ExtCall))
        else pushSecretsStep w args.dryRun args.pfx)
        = pushSecretsStep w false args.pfx := by
      rw [hsk, hd]
      rfl
    have hrun : runDeploy args w =
        (.error ("pushing secrets: " ++ e),
          [ExtCall.loadConfig, ExtCall.stsGetCallerIdentity]
            ++ (pushSecretsStep w false args.pfx).2) := by
      unfold runDeploy
      rw [hc, hs, hpush]
      rcases hps : pushSecretsStep w false args.pfx with ⟨r, tr⟩
      rw [hps] at hfail
      simp only at hfail
      rw [hfail]
    rw [hrun]
    refine ⟨rfl, ?_, ?_, ?_⟩ <;>
      (intro hmem
       simp only [List.mem_append, List.mem_cons, List.not_mem_nil, or_false] at hmem
       rcases hmem with (h | h) | h
       · exact ExtCall.noConfusion h
       · exact ExtCall.noConfusion h
       · rcases pushSecretsStep_calls w false args.pfx _ h with ⟨nm, h' | h'⟩ <;>
           exact ExtCall.noConfusion h')
  · intro b₁ b₂
    rw [runDeploy_bootstrap_irrel args w b₁, runDeploy_bootstrap_irrel args w b₂]
  · intro hok
    have hpush : (if args.skipSecrets then ((.ok () : Except String Unit), ([] : List ExtCall))
        else pushSecretsStep w args.dryRun args.pfx).1 = .ok () := by
      rcases hok with hsk | hps
      · rw [if_pos hsk]
      · by_cases hsk : args.skipSecrets
        · rw [if_pos hsk]
        · rw [if_neg hsk, hd]
          exact hps
    unfold runDeploy
    rw [hc, hs]
    rcases hsr : (if args.skipSecrets then ((.ok () : Except String Unit), ([] : List ExtCall))
        else pushSecretsStep w args.dryRun args.pfx) with ⟨r, tr⟩
    rw [hsr] at hpush
    simp only at hpush
    rw [hpush]
    have hdep : deployStep w args.dryRun = (match w.cdkDeployRun with
        | .ok _ => ((.ok () : Except String Unit), [ExtCall.goModTidy, ExtCall.cdkDeploy])
        | .error m => (.error m, [ExtCall.goModTidy, ExtCall.cdkDeploy])) := by
      rw [hd]
      rfl
    rw [hdep]
    cases w.cdkDeployRun <;> simp

theorem push_aborts_bootstrap_ignored_witness :
    (∀ e, realRunArgs.skipSecrets = false →
      (pushSecretsStep putFailWorld false realRunArgs.pfx).1 = .error e →
        (runDeploy realRunArgs putFailWorld).1 = .error ("pushing secrets: " ++ e) ∧
        ExtCall.cdkBootstrap ∉ (runDeploy realRunArgs putFailWorld).2 ∧
        ExtCall.goModTidy ∉ (runDeploy realRunArgs putFailWorld).2 ∧
        ExtCall.cdkDeploy ∉ (runDeploy realRunArgs putFailWorld).2) ∧
    (∀ b₁ b₂ : Except String Unit,
      runDeploy realRunArgs { putFailWorld with bootstrapRun := b₁ }
        = runDeploy realRunArgs { putFailWorld with bootstrapRun := b₂ }) ∧
    ((realRunArgs.skipSecrets = true
        ∨ (pushSecretsStep putFailWorld false realRunArgs.pfx).1 = .ok ()) →
      ExtCall.cdkDeploy ∈ (runDeploy realRunArgs putFailWorld).2) :=
  push_aborts_bootstrap_ignored realRunArgs putFailWorld "123456789012" rfl rfl rfl

/-- Looking up any key other than the conditionally written ones reduces
buildEnvVars to the unconditional observability inserts. -/
theorem lookup_buildEnvVars (cfg : StackConfig) (a : AgentConfig)
    (obs : ObservabilityConfig) (hobs : cfg.observability = some obs) (k : String)
    (hk1 : k ≠ "OBSERVABILITY_ENDPOINT") (hk2 : k ≠ "AGENTCORE_AGENT_NAME")
    (hk3 : k ≠ "AGENTCORE_DEFAULT_AGENT") :
    (buildEnvVars cfg a).lookup k =
      ((((Smap.ofList a.environment).insert "OBSERVABILITY_ENABLED" "true").insert
        "OBSERVABILITY_PROVIDER" obs.provider).insert
        "OBSERVABILITY_PROJECT" obs.project).lookup k := by
  unfold buildEnvVars
  rw [hobs]
  by_cases hd : a.isDefault
  · simp only [hd, if_true]
    rw [Smap.lookup_insert_ne _ _ _ _ hk3, Smap.lookup_insert_ne _ _ _ _ hk2]
    by_cases he : obs.endpoint ≠ ""
    · rw [if_pos he, Smap.lookup_insert_ne _ _ _ _ hk1]
    · rw [if_neg he]
  · simp only [hd, Bool.false_eq_true, if_false]
    rw [Smap.lookup_insert_ne _ _ _ _ hk2]
    by_cases he : obs.endpoint ≠ ""
    · rw [if_pos he, Smap.lookup_insert_ne _ _ _ _ hk1]
    · rw [if_neg he]

/-- C3 counterexample: with the agent itself setting OBSERVABILITY_PROVIDER
to "custom" and the stack configuring observability with provider "opik",
the Runtime node's resolved environment map carries the stack-level value,
not the agent-level one: the claim that agent-level keys win on conflict is
false. -/
theorem env_merge_counterexample :
    runtimeNode envConflictStack envConflictAgent ∈ buildNodes envConflictStack ∧
    (runtimeNode envConflictStack envConflictAgent).runtimeEnv
      = some (buildEnvVars envConflictStack envConflictAgent) ∧
    (buildEnvVars envConflictStack envConflictAgent).lookup "OBSERVABILITY_PROVIDER"
      = some "opik" ∧
    (buildEnvVars envConflictStack envConflictAgent).lookup "OBSERVABILITY_PROVIDER"
      ≠ some "custom" := by
  decide

/-- C3 amended: createAgent writes the stack-level observability variables
after copying the agent's own environment, so on key conflict the
stack-level value wins; every key outside the reserved
observability/AgentCore set keeps the agent-level value. -/
theorem env_merge_stack_wins (cfg : StackConfig) (a : AgentConfig)
    (obs : ObservabilityConfig) (hobs : cfg.observability = some obs)
    (ha : a ∈ cfg.agents) :
    runtimeNode cfg a ∈ buildNodes cfg ∧
    (runtimeNode cfg a).runtimeEnv = some (buildEnvVars cfg a) ∧
    (buildEnvVars cfg a).lookup "OBSERVABILITY_ENABLED" = some "true" ∧
    (buildEnvVars cfg a).lookup "OBSERVABILITY_PROVIDER" = some obs.provider ∧
    (buildEnvVars cfg a).lookup "OBSERVABILITY_PROJECT" = some obs.project ∧
    ∀ k, k ∉ reservedEnvKeys →
      (buildEnvVars cfg a).lookup k = (Smap.ofList a.environment).lookup k := by
  refine ⟨?_, ?_, ?_, ?_, ?_, ?_⟩
  · rw [buildNodes_decomp]
    refine List.mem_append.mpr (Or.inl (List.mem_append.mpr (Or.inr ?_)))
    exact List.mem_flatMap.mpr ⟨a, ha, by simp⟩
  · simp [runtimeNode, Node.runtimeEnv]
  · rw [lookup_buildEnvVars cfg a obs hobs _ (by decide) (by decide) (by decide),
      Smap.lookup_insert_ne _ _ _ _ (by decide), Smap.lookup_insert_ne _ _ _ _ (by decide),
      Smap.lookup_insert_self]
  · rw [lookup_buildEnvVars cfg a obs hobs _ (by decide) (by decide) (by decide),
      Smap.lookup_insert_ne _ _ _ _ (by decide), Smap.lookup_insert_self]
  · rw [lookup_buildEnvVars cfg a obs hobs _ (by decide) (by decide) (by decide),
      Smap.lookup_insert_self]
  · intro k hk
    simp only [reservedEnvKeys, List.mem_cons, List.not_mem_nil, or_false, not_or] at hk
    obtain ⟨hk1, hk2, hk3, hk4, hk5, hk6⟩ := hk
    rw [lookup_buildEnvVars cfg a obs hobs k hk4 hk5 hk6,
      Smap.lookup_insert_ne _ _ _ _ hk3, Smap.lookup_insert_ne _ _ _ _ hk2,
      Smap.lookup_insert_ne _ _ _ _ hk1]

theorem env_merge_stack_wins_witness :
    runtimeNode envConflictStack envConflictAgent ∈ buildNodes envConflictStack ∧
    (runtimeNode envConflictStack envConflictAgent).runtimeEnv
      = some (buildEnvVars envConflictStack envConflictAgent) ∧
    (buildEnvVars envConflictStack envConflictAgent).lookup "OBSERVABILITY_ENABLED"
      = some "true" ∧
    (buildEnvVars envConflictStack envConflictAgent).lookup "OBSERVABILITY_PROVIDER"
      = some envConflictObs.provider ∧
    (buildEnvVars envConflictStack envConflictAgent).lookup "OBSERVABILITY_PROJECT"
      = some envConflictObs.project ∧
    ∀ k, k ∉ reservedEnvKeys →
      (buildEnvVars envConflictStack envConflictAgent).lookup k
        = (Smap.ofList envConflictAgent.environment).lookup k :=
  env_merge_stack_wins envConflictStack envConflictAgent envConflictObs rfl
    (by decide)

theorem created_secret_empty_payload_witness :
    (buildNodes secretsStack).filter (fun n => n.kind == NodeKind.secretStore) =
      [Node.secret
        (if secretsSc.secretName = "" then secretsStack.stackName ++ "-secrets"
         else secretsSc.secretName)
        ("Secrets for " ++ secretsStack.stackName ++ " AgentCore agents") []] ∧
    ∀ n ∈ buildNodes secretsStack, ∀ kvs, n.secretPayload = some kvs → kvs = [] :=
  created_secret_empty_payload secretsStack secretsSc rfl rfl (by decide)

end AgentKit
